import Mathlib

/-
Verification of the tinystan Python binding layer
(src/clients/python/tinystan/model.py) against its specification.

The embedding models the binding layer's control flow as pure functions:
  * python strings are `List Char` (so that split/join round trips are
    provable with list lemmas); error messages stay `String`;
  * numpy arrays are tracked by shape only (`List Nat`), since every claim
    in scope is about buffer shapes, never numeric contents;
  * the opaque native library is a `NativeEnv` record of oracles: whether
    model construction succeeds, the comma-delimited parameter-name string,
    the free-parameter count, the return code and error slot of each
    algorithm entry point, and the value `rand_u32` would produce;
  * each invoker returns the list of native-boundary events it performed
    (in order) together with `Except Exn result`, mirroring Python's
    raise-based control flow.
Pure pass-through scalar tuning arguments (delta, gamma, tolerances, ...)
are elided: they are forwarded verbatim to the native call and affect no
control flow, shape, or name computation.
-/

namespace TinyStan

/-- Exceptions raised by the binding layer, mirroring the Python exception
types that appear in model.py (`ValueError`, `RuntimeError`,
`KeyboardInterrupt`). -/
inductive Exn where
  | runtimeError (msg : String)
  | valueError (msg : String)
  | keyboardInterrupt (msg : String)
  deriving DecidableEq, Repr

/-- Decidable equality for `Except` values, so that concrete invoker
outcomes can be checked by `decide` in the witnesses below. -/
instance {ε α : Type} [DecidableEq ε] [DecidableEq α] :
    DecidableEq (Except ε α) := fun x y =>
  match x, y with
  | Except.ok a, Except.ok b =>
      if h : a = b then isTrue (by rw [h])
      else isFalse (by intro he; cases he; exact h rfl)
  | Except.error a, Except.error b =>
      if h : a = b then isTrue (by rw [h])
      else isFalse (by intro he; cases he; exact h rfl)
  | Except.ok _, Except.error _ => isFalse (by intro he; cases he)
  | Except.error _, Except.ok _ => isFalse (by intro he; cases he)

/-- A populated native error object: the message `tinystan_get_error_message`
would return and the type code `tinystan_get_error_type` would return
(a 3-valued enum, per the `# really enum` comment in model.py). -/
structure NativeErr where
  msg : String
  ty : Fin 3
  deriving DecidableEq, Repr

/-- model.py line 92: `_exception_types = [RuntimeError, ValueError,
KeyboardInterrupt]`, indexed by the native error-type code. -/
def _exception_types : List (String → Exn) :=
  [Exn.runtimeError, Exn.valueError, Exn.keyboardInterrupt]

/-- Model._raise_for_error (model.py lines 311-320). Given the native return
code and the (optional) populated error slot, returns the control-flow
outcome (`ok` = no-op, `error` = the exception raised) paired with the
number of `tinystan_free_stan_error` calls performed. -/
def _raise_for_error (rc : Int) (err : Option NativeErr) :
    Except Exn Unit × Nat :=
  if rc ≠ 0 then
    match err with
    | some e =>
        (Except.error ((_exception_types.get ⟨e.ty.1, e.ty.2⟩) e.msg), 1)
    | none =>
        (Except.error (Exn.runtimeError
          ("Unknown error, function returned code " ++ toString rc)), 0)
  else
    (Except.ok (), 0)

/-- One observable native-boundary action performed by an invoker, recorded
with the data relevant to the claims: the seed handed to
`tinystan_create_model`, and the seed and initial-inverse-metric argument
(by shape, `none` = native NULL) handed to `tinystan_sample`. -/
inductive Event where
  | createModel (seed : Nat)
  | destroyModel
  | getParamNames
  | numFreeParams
  | ffiSample (seed : Nat) (initMetric : Option (List Nat))
  | ffiPathfinder (seed : Nat)
  | ffiLaplace (seed : Nat) (modeArrayLen : Option Nat)
  deriving DecidableEq, Repr

/-- Oracle description of the loaded native library: everything the Python
layer can observe through the C boundary. -/
structure NativeEnv where
  /-- whether `tinystan_create_model` returns a non-null handle -/
  createOk : Bool
  /-- the error slot populated when construction fails (may be null) -/
  createErr : Option NativeErr
  /-- string returned by `tinystan_model_param_names` -/
  paramNameString : List Char
  /-- value returned by `tinystan_model_num_free_params` -/
  numFreeParams : Nat
  /-- the value `rand_u32()` would produce if called -/
  rand : Nat
  /-- return code of `tinystan_sample` and its error slot -/
  sampleRc : Int
  sampleErr : Option NativeErr
  /-- return code of `tinystan_pathfinder` and its error slot -/
  pathfinderRc : Int
  pathfinderErr : Option NativeErr
  /-- return code of `tinystan_laplace_sample` and its error slot -/
  laplaceRc : Int
  laplaceErr : Option NativeErr
  deriving DecidableEq, Repr

/-- The idiom `seed = seed or rand_u32()` (model.py lines 393, 505, 569,
620): Python `or` takes the right operand when the left is falsy, and both
`None` and `0` are falsy. -/
def resolve_seed (seed : Option Nat) (rand : Nat) : Nat :=
  match seed with
  | none => rand
  | some s => if s = 0 then rand else s

/-- Model._get_model (model.py lines 322-331), the context manager wrapping
one native model handle. `tinystan_create_model` is called with the resolved
seed; `_raise_for_error(not model, err)` propagates a construction failure
before the try block, so the destructor is not called in that case; on
success the `try/finally` guarantees exactly one `tinystan_destroy_model`
after the body, whether the body returns or raises. -/
def _get_model {α : Type} (env : NativeEnv) (seed : Nat)
    (body : List Event × Except Exn α) : List Event × Except Exn α :=
  let rc : Int := if env.createOk then 0 else 1
  match (_raise_for_error rc env.createErr).1 with
  | Except.error e => ([Event.createModel seed], Except.error e)
  | Except.ok _ =>
      (Event.createModel seed :: (body.1 ++ [Event.destroyModel]), body.2)

/-- Python `str.strip()`: remove leading and trailing whitespace. -/
def pyStrip (s : List Char) : List Char :=
  ((s.dropWhile Char.isWhitespace).reverse.dropWhile Char.isWhitespace).reverse

/-- Model._get_parameter_names (model.py lines 345-349): decode the native
comma-delimited string, strip surrounding whitespace, return `[]` for the
empty result, else split on commas. -/
def _get_parameter_names (s : List Char) : List (List Char) :=
  let comma_separated := pyStrip s
  if comma_separated = [] then []
  else comma_separated.splitOn ','

/-- model.py lines 50-58. -/
def HMC_SAMPLER_VARIABLES : List (List Char) :=
  ["lp__".toList, "accept_stat__".toList, "stepsize__".toList,
   "treedepth__".toList, "n_leapfrog__".toList, "divergent__".toList,
   "energy__".toList]

/-- model.py lines 60-63. -/
def PATHFINDER_VARIABLES : List (List Char) :=
  ["lp_approx__".toList, "lp__".toList]

/-- model.py lines 65-67. -/
def OPTIMIZE_VARIABLES : List (List Char) :=
  ["lp__".toList]

/-- model.py lines 69-72. -/
def LAPLACE_VARIABLES : List (List Char) :=
  ["log_p__".toList, "log_q__".toList]

/-- model.py lines 80-83: the HMC metric kind enum. -/
inductive HMCMetric where
  | UNIT
  | DENSE
  | DIAGONAL
  deriving DecidableEq, Repr

/-- Caller-supplied `inits`, normalized past the external serialization:
either a single value (dict, str, path) whose serialized bytes are given,
or a sequence whose elements' serialized bytes are given. A `StanOutput`
handoff is first expanded by `create_inits` (external to this file) into a
per-chain list, i.e. into the `seq` case. -/
inductive Inits where
  | single (payload : List Char)
  | seq (payloads : List (List Char))
  deriving DecidableEq, Repr

/-- Model._encode_inits (model.py lines 333-343): `None` encodes to `None`
(a native NULL); a list of k elements is each serialized and joined with the
library separator character `self.sep` (Python `sep.join`); anything else is
serialized alone. -/
def _encode_inits (sep : Char) (inits : Option Inits) : Option (List Char) :=
  match inits with
  | none => none
  | some (Inits.seq payloads) => some (List.intercalate [sep] payloads)
  | some (Inits.single payload) => some payload

/-- Python truthy arithmetic `num_warmup * save_warmup` (model.py line 403):
`True` counts as 1, `False` as 0. -/
def boolInt (b : Bool) : Int := if b then 1 else 0

/-- The per-chain metric shape (model.py lines 406-410): `(P, P)` for the
dense metric, `(P,)` otherwise. -/
def metricSize (metric : HMCMetric) (model_params : Nat) : List Nat :=
  if metric = HMCMetric.DENSE then [model_params, model_params]
  else [model_params]

/-- Result of a successful `sample` call: the positional column labels and
the shapes of the draw buffer and (if saved) the metric output buffer. -/
structure SampleResult where
  paramNames : List (List Char)
  outShape : List Nat
  metricOutShape : Option (List Nat)
  deriving DecidableEq, Repr

/-- Body of Model.sample inside the `with self._get_model(...)` block
(model.py lines 395-461): query the free-parameter count, reject empty
models, build the column names, compute the draw-buffer shape, validate and
broadcast the initial inverse metric, perform the native sample call and
route its return code through `_raise_for_error`. -/
def sampleBody (env : NativeEnv) (num_chains num_warmup num_samples : Int)
    (seed : Nat) (metric : HMCMetric) (init_inv_metric : Option (List Nat))
    (save_metric save_warmup : Bool) :
    List Event × Except Exn SampleResult :=
  let model_params := env.numFreeParams
  if model_params = 0 then
    ([Event.numFreeParams],
     Except.error (Exn.valueError "Model has no parameters to sample."))
  else
    let param_names :=
      HMC_SAMPLER_VARIABLES ++ _get_parameter_names env.paramNameString
    let num_params := param_names.length
    let num_draws := num_samples + num_warmup * boolInt save_warmup
    let outShape := [num_chains.toNat, num_draws.toNat, num_params]
    let metric_size := metricSize metric model_params
    let pre := [Event.numFreeParams, Event.getParamNames]
    let metricArg? : Except Exn (Option (List Nat)) :=
      match init_inv_metric with
      | none => Except.ok none
      | some shape =>
          if shape = metric_size then
            Except.ok (some (num_chains.toNat :: metric_size))
          else if shape = num_chains.toNat :: metric_size then
            Except.ok (some shape)
          else
            Except.error (Exn.valueError "Invalid initial metric size.")
    match metricArg? with
    | Except.error e => (pre, Except.error e)
    | Except.ok metricArg =>
        let metricOutShape :=
          if save_metric then some (num_chains.toNat :: metric_size) else none
        let events := pre ++ [Event.ffiSample seed metricArg]
        match (_raise_for_error env.sampleRc env.sampleErr).1 with
        | Except.error e => (events, Except.error e)
        | Except.ok _ =>
            (events, Except.ok ⟨param_names, outShape, metricOutShape⟩)

/-- Model.sample (model.py lines 356-466): validate the size-governing
arguments, resolve the seed, then run `sampleBody` inside the model-session
bracket. -/
def sample (env : NativeEnv) (num_chains num_warmup num_samples : Int)
    (seed : Option Nat) (metric : HMCMetric)
    (init_inv_metric : Option (List Nat)) (save_metric save_warmup : Bool) :
    List Event × Except Exn SampleResult :=
  if num_chains < 1 then
    ([], Except.error (Exn.valueError "num_chains must be at least 1"))
  else if num_warmup < 0 then
    ([], Except.error (Exn.valueError "num_warmup must be non-negative"))
  else if num_samples < 1 then
    ([], Except.error (Exn.valueError "num_samples must be at least 1"))
  else
    _get_model env (resolve_seed seed env.rand)
      (sampleBody env num_chains num_warmup num_samples
        (resolve_seed seed env.rand) metric init_inv_metric save_metric
        save_warmup)

/-- Result of a successful `pathfinder` call. -/
structure PathfinderResult where
  paramNames : List (List Char)
  outShape : List Nat
  deriving DecidableEq, Repr

/-- Body of Model.pathfinder inside the model-session bracket (model.py
lines 507-544). -/
def pathfinderBody (env : NativeEnv) (output_size : Int) (seed : Nat) :
    List Event × Except Exn PathfinderResult :=
  let model_params := env.numFreeParams
  if model_params = 0 then
    ([Event.numFreeParams],
     Except.error (Exn.valueError "Model has no parameters."))
  else
    let param_names :=
      PATHFINDER_VARIABLES ++ _get_parameter_names env.paramNameString
    let num_params := param_names.length
    let outShape := [output_size.toNat, num_params]
    let events := [Event.numFreeParams, Event.getParamNames,
                   Event.ffiPathfinder seed]
    match (_raise_for_error env.pathfinderRc env.pathfinderErr).1 with
    | Except.error e => (events, Except.error e)
    | Except.ok _ => (events, Except.ok ⟨param_names, outShape⟩)

/-- Model.pathfinder (model.py lines 468-546): validate draws/paths/
multi-draws, pick the output row count from `calculate_lp ∧ psis_resample`,
resolve the seed, then run the body inside the session bracket. -/
def pathfinder (env : NativeEnv)
    (num_paths num_draws num_multi_draws : Int) (seed : Option Nat)
    (calculate_lp psis_resample : Bool) :
    List Event × Except Exn PathfinderResult :=
  if num_draws < 1 then
    ([], Except.error (Exn.valueError "num_draws must be at least 1"))
  else if num_paths < 1 then
    ([], Except.error (Exn.valueError "num_paths must be at least 1"))
  else if num_multi_draws < 1 then
    ([], Except.error (Exn.valueError "num_multi_draws must be at least 1"))
  else
    _get_model env (resolve_seed seed env.rand)
      (pathfinderBody env
        (if calculate_lp && psis_resample then num_multi_draws
         else num_draws * num_paths)
        (resolve_seed seed env.rand))

/-- The polymorphic `mode` argument of laplace_sample, tracked by the data
the size check needs: a `StanOutput` by the shape of its `.data` array, a
raw numpy vector by its length, or a dict/str/path (serialized to JSON). -/
inductive LaplaceModeInput where
  | stanOut (dataShape : List Nat)
  | arr (len : Nat)
  | jsonLike
  deriving DecidableEq, Repr

/-- preprocess_laplace_inputs (model.py lines 110-128): a `StanOutput` with
1-dimensional data of length n becomes the numeric mode `data[1:]` (length
n - 1); any other `StanOutput` raises; a numpy vector is used directly; any
other value is serialized to the JSON path. Returns
(mode_array length, mode_json present). -/
def preprocess_laplace_inputs (mode : LaplaceModeInput) :
    Except Exn (Option Nat × Bool) :=
  match mode with
  | LaplaceModeInput.stanOut [n] => Except.ok (some (n - 1), false)
  | LaplaceModeInput.stanOut _ =>
      Except.error
        (Exn.valueError "Laplace can only be used with Optimization output")
  | LaplaceModeInput.arr n => Except.ok (some n, false)
  | LaplaceModeInput.jsonLike => Except.ok (none, true)

/-- Result of a successful `laplace_sample` call. -/
structure LaplaceResult where
  paramNames : List (List Char)
  outShape : List Nat
  hessianShape : Option (List Nat)
  deriving DecidableEq, Repr

/-- Body of Model.laplace_sample inside the model-session bracket (model.py
lines 624-661): build the column names, reject a numeric mode whose length
differs from `num_params - len(LAPLACE_VARIABLES)`, allocate the buffers,
perform the native call and route its return code. -/
def laplaceBody (env : NativeEnv) (mode_array : Option Nat)
    (num_draws : Int) (save_hessian : Bool) (seed : Nat) :
    List Event × Except Exn LaplaceResult :=
  let param_names :=
    LAPLACE_VARIABLES ++ _get_parameter_names env.paramNameString
  let num_params := param_names.length
  let size_mismatch : Bool :=
    match mode_array with
    | some n => n != num_params - LAPLACE_VARIABLES.length
    | none => false
  if size_mismatch then
    ([Event.getParamNames],
     Except.error (Exn.valueError "Mode array has incorrect length."))
  else
    let outShape := [num_draws.toNat, num_params]
    let model_params := env.numFreeParams
    let hessianShape :=
      if save_hessian then some [model_params, model_params] else none
    let events := [Event.getParamNames, Event.numFreeParams,
                   Event.ffiLaplace seed mode_array]
    match (_raise_for_error env.laplaceRc env.laplaceErr).1 with
    | Except.error e => (events, Except.error e)
    | Except.ok _ => (events, Except.ok ⟨param_names, outShape, hessianShape⟩)

/-- Model.laplace_sample (model.py lines 604-666): validate `num_draws`,
resolve the seed, preprocess the polymorphic mode (before the session is
acquired), then run the body inside the session bracket. -/
def laplace_sample (env : NativeEnv) (mode : LaplaceModeInput)
    (num_draws : Int) (save_hessian : Bool) (seed : Option Nat) :
    List Event × Except Exn LaplaceResult :=
  if num_draws < 1 then
    ([], Except.error (Exn.valueError "num_draws must be at least 1"))
  else
    match preprocess_laplace_inputs mode with
    | Except.error e => ([], Except.error e)
    | Except.ok (mode_array, _mode_json) =>
        _get_model env (resolve_seed seed env.rand)
          (laplaceBody env mode_array num_draws save_hessian
            (resolve_seed seed env.rand))

/-! ### Helper lemmas shared by the claim proofs -/

/-- With a zero return code, the error check is a no-op and frees nothing. -/
theorem raise_fst_zero (err : Option NativeErr) :
    _raise_for_error 0 err = (Except.ok (), 0) := by
  simp [_raise_for_error]

/-- With a nonzero return code, the error check always raises. -/
theorem raise_fst_error (rc : Int) (err : Option NativeErr) (h : rc ≠ 0) :
    ∃ e, (_raise_for_error rc err).1 = Except.error e := by
  unfold _raise_for_error
  rw [if_pos h]
  cases err <;> exact ⟨_, rfl⟩

/-- When construction succeeds, the session bracket runs the body between
the constructor and exactly one trailing destructor call. -/
theorem get_model_ok {α : Type} (env : NativeEnv) (seed : Nat)
    (body : List Event × Except Exn α) (h : env.createOk = true) :
    _get_model env seed body =
      (Event.createModel seed :: (body.1 ++ [Event.destroyModel]), body.2) := by
  simp [_get_model, h, raise_fst_zero]

/-- When construction fails, the bracket stops after the constructor call
and propagates an error. -/
theorem get_model_fail {α : Type} (env : NativeEnv) (seed : Nat)
    (body : List Event × Except Exn α) (h : env.createOk = false) :
    ∃ e, _get_model env seed body =
      ([Event.createModel seed], Except.error e) := by
  obtain ⟨e, he⟩ := raise_fst_error 1 env.createErr (by decide)
  refine ⟨e, ?_⟩
  simp only [_get_model, h, Bool.false_eq_true, if_false]
  rw [he]

/-- The first native-boundary action of every session bracket is the
constructor call with the resolved seed. -/
theorem get_model_head {α : Type} (env : NativeEnv) (seed : Nat)
    (body : List Event × Except Exn α) :
    (_get_model env seed body).1.head? = some (Event.createModel seed) := by
  cases h : env.createOk
  · obtain ⟨e, he⟩ := get_model_fail env seed body h
    rw [he]
    rfl
  · rw [get_model_ok env seed body h]
    rfl

/-- A concrete native-library oracle used by the closed witnesses and
counterexamples: construction succeeds, the model has two free parameters
named a and b, every native entry point succeeds, and `rand_u32` would
return 777. -/
def wEnv : NativeEnv :=
  { createOk := true, createErr := none,
    paramNameString := "a,b".toList,
    numFreeParams := 2, rand := 777,
    sampleRc := 0, sampleErr := none,
    pathfinderRc := 0, pathfinderErr := none,
    laplaceRc := 0, laplaceErr := none }

/-! ### Claim theorems -/

/-- C3: for every return code and error slot, a zero code is a no-op; a
nonzero code with a populated slot extracts the message, frees the handle
exactly once, and raises the category-mapped exception (0 = recoverable
runtime → RuntimeError, 1 = invalid argument → ValueError, 2 = user
interrupt → KeyboardInterrupt) carrying the message; a nonzero code with a
null slot raises an unknown-error RuntimeError carrying the raw code. -/
theorem raise_for_error_spec (rc : Int) (m : String) :
    (∀ err, _raise_for_error 0 err = (Except.ok (), 0)) ∧
    (rc ≠ 0 → _raise_for_error rc none =
      (Except.error (Exn.runtimeError
        ("Unknown error, function returned code " ++ toString rc)), 0)) ∧
    (rc ≠ 0 → _raise_for_error rc (some ⟨m, 0⟩) =
      (Except.error (Exn.runtimeError m), 1)) ∧
    (rc ≠ 0 → _raise_for_error rc (some ⟨m, 1⟩) =
      (Except.error (Exn.valueError m), 1)) ∧
    (rc ≠ 0 → _raise_for_error rc (some ⟨m, 2⟩) =
      (Except.error (Exn.keyboardInterrupt m), 1)) := by
  refine ⟨fun err => raise_fst_zero err, ?_, ?_, ?_, ?_⟩ <;>
    · intro h
      unfold _raise_for_error
      rw [if_pos h]
      try exact rfl

/-- Witness for raise_for_error_spec at the concrete code 3 and a populated
user-interrupt error object. -/
theorem raise_for_error_spec_witness :
    _raise_for_error 3 (some ⟨"interrupted", 2⟩) =
      (Except.error (Exn.keyboardInterrupt "interrupted"), 1) :=
  (raise_for_error_spec 3 "interrupted").2.2.2.2 (by decide)

/-- C6: for `num_chains < 1` (in particular `num_chains = 0`), `sample`
raises the invalid-argument error with an empty native-event trace, so no
session is acquired, no native call is made, and no handle can leak. -/
theorem sample_rejects_nonpositive_chains (env : NativeEnv)
    (num_chains num_warmup num_samples : Int) (seed : Option Nat)
    (metric : HMCMetric) (init_inv_metric : Option (List Nat))
    (save_metric save_warmup : Bool) (h : num_chains < 1) :
    sample env num_chains num_warmup num_samples seed metric init_inv_metric
        save_metric save_warmup =
      ([], Except.error (Exn.valueError "num_chains must be at least 1")) := by
  unfold sample
  rw [if_pos h]

/-- Witness for sample_rejects_nonpositive_chains at `num_chains = 0`. -/
theorem sample_rejects_nonpositive_chains_witness :
    sample wEnv 0 1000 1000 none HMCMetric.DIAGONAL none false false =
      ([], Except.error (Exn.valueError "num_chains must be at least 1")) :=
  sample_rejects_nonpositive_chains wEnv 0 1000 1000 none HMCMetric.DIAGONAL
    none false false (by decide)

/-- C2: for every body (of any invoker) that itself performs no destructor
call, a successful construction is followed by exactly one destructor call,
placed after every other native action (so the handle is never used after
destruction), on every exit path — the body's outcome, normal or raised, is
propagated unchanged; a failed (null-handle) construction performs no
destructor call and propagates an error. -/
theorem model_session_bracket {α : Type} (env : NativeEnv) (seed : Nat)
    (body : List Event × Except Exn α)
    (hbody : body.1.count Event.destroyModel = 0) :
    (env.createOk = true →
      (_get_model env seed body).1.count Event.destroyModel = 1 ∧
      (_get_model env seed body).1.getLast? = some Event.destroyModel ∧
      (_get_model env seed body).2 = body.2) ∧
    (env.createOk = false →
      (_get_model env seed body).1.count Event.destroyModel = 0 ∧
      ∃ e, (_get_model env seed body).2 = Except.error e) := by
  constructor
  · intro h
    rw [get_model_ok env seed body h]
    refine ⟨?_, ?_, rfl⟩
    · simp [List.count_cons, List.count_append, hbody]
    · rw [← List.cons_append, List.getLast?_concat]
  · intro h
    obtain ⟨e, he⟩ := get_model_fail env seed body h
    rw [he]
    exact ⟨by simp [List.count_cons], e, rfl⟩

/-- Witness for model_session_bracket: with a successful construction the
bracket performs exactly one destructor call; with a failed construction it
performs none. -/
theorem model_session_bracket_witness :
    (_get_model wEnv 7
      ([Event.numFreeParams], (Except.ok 0 : Except Exn Nat))).1.count
        Event.destroyModel = 1 ∧
    (_get_model {wEnv with createOk := false} 7
      ([Event.numFreeParams], (Except.ok 0 : Except Exn Nat))).1.count
        Event.destroyModel = 0 := by
  constructor
  · exact ((model_session_bracket wEnv 7
      ([Event.numFreeParams], (Except.ok 0 : Except Exn Nat))
      (by decide)).1 rfl).1
  · exact ((model_session_bracket {wEnv with createOk := false} 7
      ([Event.numFreeParams], (Except.ok 0 : Except Exn Nat))
      (by decide)).2 rfl).1

/-- C7 counterexample: for the empty sequence (k = 0) the encoder produces
the empty payload, and re-splitting the empty payload on the delimiter
yields one segment, not zero — so re-splitting does not recover k segments
for every k. -/
theorem encode_inits_empty_seq_counterexample :
    _encode_inits ',' (some (Inits.seq [])) = some [] ∧
    (([] : List Char).splitOn ',').length = 1 ∧ (1 : Nat) ≠ 0 := by
  decide

/-- C7 (amended): a null `inits` encodes to null; a sequence of k ≥ 1
serialized segments, none containing the delimiter character, encodes to
exactly the k segments joined by the delimiter, and re-splitting that
payload on the delimiter recovers exactly the k segments. -/
theorem encode_inits_roundtrip (sep : Char) (payloads : List (List Char))
    (hne : payloads ≠ []) (hsep : ∀ p ∈ payloads, sep ∉ p) :
    _encode_inits sep none = none ∧
    _encode_inits sep (some (Inits.seq payloads)) =
      some (List.intercalate [sep] payloads) ∧
    (List.intercalate [sep] payloads).splitOn sep = payloads ∧
    ((List.intercalate [sep] payloads).splitOn sep).length =
      payloads.length := by
  have h := List.splitOn_intercalate payloads sep hsep hne
  exact ⟨rfl, rfl, h, by rw [h]⟩

/-- Witness for encode_inits_roundtrip on the two-element sequence
["a", "b"] with delimiter a comma. -/
theorem encode_inits_roundtrip_witness :
    _encode_inits ',' none = none ∧
    _encode_inits ',' (some (Inits.seq ["a".toList, "b".toList])) =
      some (List.intercalate [','] ["a".toList, "b".toList]) ∧
    (List.intercalate [','] ["a".toList, "b".toList]).splitOn ',' =
      ["a".toList, "b".toList] ∧
    ((List.intercalate [','] ["a".toList, "b".toList]).splitOn ',').length =
      ["a".toList, "b".toList].length :=
  encode_inits_roundtrip ',' ["a".toList, "b".toList] (by decide) (by decide)

/-- C8 counterexample: on the nonempty, whitespace-only native string " "
the resolver returns the empty sequence, while the claim's "otherwise
yields the comma-split names" branch would give the one-element sequence
[" "] — the code strips surrounding whitespace before the emptiness test
and the split. -/
theorem parameter_names_whitespace_counterexample :
    _get_parameter_names " ".toList = [] ∧
    " ".toList ≠ [] ∧
    (" ".toList).splitOn ',' = [" ".toList] := by
  decide

/-- C8 (amended): resolving the native name string yields the empty
sequence whenever the string strips to empty (in particular for the empty
string), never the one-element sequence containing an empty name; and on a
comma-joined list of names (nonempty, comma-free, with no surrounding
whitespace to strip) it recovers exactly those names in order. -/
theorem parameter_names_resolution (s : List Char)
    (names : List (List Char)) (hne : names ≠ [])
    (hcomma : ∀ n ∈ names, ',' ∉ n)
    (hnil : List.intercalate [','] names ≠ [])
    (hstrip : pyStrip (List.intercalate [','] names) =
      List.intercalate [','] names) :
    _get_parameter_names [] = [] ∧
    _get_parameter_names s ≠ [[]] ∧
    (pyStrip s = [] → _get_parameter_names s = []) ∧
    _get_parameter_names (List.intercalate [','] names) = names := by
  refine ⟨rfl, ?_, ?_, ?_⟩
  · simp only [_get_parameter_names]
    by_cases h : pyStrip s = []
    · simp [h]
    · rw [if_neg h]
      intro heq
      have h2 : [','].intercalate ((pyStrip s).splitOn ',') = pyStrip s :=
        List.intercalate_splitOn (pyStrip s) ','
      rw [heq] at h2
      have h3 : [','].intercalate [([] : List Char)] = [] := by decide
      rw [h3] at h2
      exact h h2.symm
  · intro h
    simp [_get_parameter_names, h]
  · simp only [_get_parameter_names, hstrip]
    rw [if_neg hnil]
    exact List.splitOn_intercalate names ',' hcomma hne

/-- Witness for parameter_names_resolution at the native string " a " and
the name list ["a", "b"]. -/
theorem parameter_names_resolution_witness :
    _get_parameter_names [] = [] ∧
    _get_parameter_names " a ".toList ≠ [[]] ∧
    (pyStrip " a ".toList = [] → _get_parameter_names " a ".toList = []) ∧
    _get_parameter_names (List.intercalate [','] ["a".toList, "b".toList]) =
      ["a".toList, "b".toList] :=
  parameter_names_resolution " a ".toList ["a".toList, "b".toList]
    (by decide) (by decide) (by decide) (by decide)

/-- C9 counterexample: with a caller-supplied seed of 0 and a library
oracle whose fresh random value is 777, the seed handed to the native
constructor is 777, and the supplied seed 0 is passed nowhere — Python
`seed = seed or rand_u32()` treats 0 as falsy. -/
theorem seed_zero_counterexample :
    (sample wEnv 1 0 1 (some 0) HMCMetric.DIAGONAL none
      false false).1.head? = some (Event.createModel 777) ∧
    Event.createModel 0 ∉
      (sample wEnv 1 0 1 (some 0) HMCMetric.DIAGONAL none false false).1 := by
  decide

/-- C9 (amended): in a valid `sample` call, a caller-supplied nonzero seed
is exactly the seed passed to the native constructor; a fresh random 32-bit
value is used when the seed is absent — and also when the supplied seed is
0, which Python `or` treats like an absent value. -/
theorem seed_resolution (env : NativeEnv)
    (num_chains num_warmup num_samples : Int) (metric : HMCMetric)
    (init_inv_metric : Option (List Nat)) (save_metric save_warmup : Bool)
    (s : Nat) (h1 : 1 ≤ num_chains) (h2 : 0 ≤ num_warmup)
    (h3 : 1 ≤ num_samples) (hs : s ≠ 0) :
    (sample env num_chains num_warmup num_samples (some s) metric
      init_inv_metric save_metric save_warmup).1.head? =
        some (Event.createModel s) ∧
    (sample env num_chains num_warmup num_samples none metric
      init_inv_metric save_metric save_warmup).1.head? =
        some (Event.createModel env.rand) ∧
    (sample env num_chains num_warmup num_samples (some 0) metric
      init_inv_metric save_metric save_warmup).1.head? =
        some (Event.createModel env.rand) := by
  have hc : ¬ (num_chains < 1) := by omega
  have hw : ¬ (num_warmup < 0) := by omega
  have hn : ¬ (num_samples < 1) := by omega
  refine ⟨?_, ?_, ?_⟩ <;>
    · unfold sample
      rw [if_neg hc, if_neg hw, if_neg hn, get_model_head]
      simp [resolve_seed, hs]

/-- Witness for seed_resolution at seed 42 in a 1-chain, 0-warmup,
1-sample call. -/
theorem seed_resolution_witness :
    (sample wEnv 1 0 1 (some 42) HMCMetric.DIAGONAL none
      false false).1.head? = some (Event.createModel 42) ∧
    (sample wEnv 1 0 1 none HMCMetric.DIAGONAL none
      false false).1.head? = some (Event.createModel wEnv.rand) ∧
    (sample wEnv 1 0 1 (some 0) HMCMetric.DIAGONAL none
      false false).1.head? = some (Event.createModel wEnv.rand) :=
  seed_resolution wEnv 1 0 1 HMCMetric.DIAGONAL none false false 42
    (by decide) (by decide) (by decide) (by decide)

/-- C10: when the model reports zero free parameters, a valid `pathfinder`
call raises the invalid-argument error "Model has no parameters." after the
free-parameter query and before the native pathfinder call, and the
already-acquired session is still destroyed exactly once. -/
theorem pathfinder_empty_model_rejected (env : NativeEnv)
    (num_paths num_draws num_multi_draws : Int) (seed : Option Nat)
    (calculate_lp psis_resample : Bool) (h1 : 1 ≤ num_draws)
    (h2 : 1 ≤ num_paths) (h3 : 1 ≤ num_multi_draws)
    (hcreate : env.createOk = true) (hzero : env.numFreeParams = 0) :
    pathfinder env num_paths num_draws num_multi_draws seed calculate_lp
        psis_resample =
      ([Event.createModel (resolve_seed seed env.rand),
        Event.numFreeParams, Event.destroyModel],
       Except.error (Exn.valueError "Model has no parameters.")) := by
  have hd : ¬ (num_draws < 1) := by omega
  have hp : ¬ (num_paths < 1) := by omega
  have hm : ¬ (num_multi_draws < 1) := by omega
  unfold pathfinder
  rw [if_neg hd, if_neg hp, if_neg hm, get_model_ok _ _ _ hcreate]
  unfold pathfinderBody
  rw [if_pos hzero]
  rfl

/-- Witness for pathfinder_empty_model_rejected on a zero-parameter model
with 4 paths, 10 draws, 10 multi-draws and seed 5. -/
theorem pathfinder_empty_model_rejected_witness :
    pathfinder {wEnv with numFreeParams := 0} 4 10 10 (some 5) true true =
      ([Event.createModel
          (resolve_seed (some 5) {wEnv with numFreeParams := 0}.rand),
        Event.numFreeParams, Event.destroyModel],
       Except.error (Exn.valueError "Model has no parameters.")) :=
  pathfinder_empty_model_rejected {wEnv with numFreeParams := 0} 4 10 10
    (some 5) true true (by decide) (by decide) (by decide) rfl rfl

/-- Characterization of a successful sample body: whatever branch was
taken, the result's column names are the seven HMC diagnostics followed by
the resolved model names, and the draw buffer has the computed
three-dimensional shape. -/
theorem sampleBody_ok (env : NativeEnv)
    (num_chains num_warmup num_samples : Int) (seed : Nat)
    (metric : HMCMetric) (init_inv_metric : Option (List Nat))
    (save_metric save_warmup : Bool) (r : SampleResult)
    (hok : (sampleBody env num_chains num_warmup num_samples seed metric
      init_inv_metric save_metric save_warmup).2 = Except.ok r) :
    r.paramNames =
      HMC_SAMPLER_VARIABLES ++ _get_parameter_names env.paramNameString ∧
    r.outShape = [num_chains.toNat,
      (num_samples + num_warmup * boolInt save_warmup).toNat,
      (HMC_SAMPLER_VARIABLES ++
        _get_parameter_names env.paramNameString).length] := by
  simp only [sampleBody] at hok
  split at hok
  · exact Except.noConfusion hok
  · split at hok
    · exact Except.noConfusion hok
    · split at hok
      · exact Except.noConfusion hok
      · have h2 := Except.ok.inj hok
        subst h2
        exact ⟨rfl, rfl⟩

/-- C1: for every call to sample with chains ≥ 1, warmup ≥ 0, samples ≥ 1
that returns a result, the draw buffer has shape
(num_chains, num_warmup·save_warmup + num_samples, 7 + numFreeParamNames)
and the column names are the seven fixed HMC diagnostics followed by the
model's free-parameter names, the first being lp__. -/
theorem sample_buffer_shape_and_names (env : NativeEnv)
    (num_chains num_warmup num_samples : Int) (seed : Option Nat)
    (metric : HMCMetric) (init_inv_metric : Option (List Nat))
    (save_metric save_warmup : Bool) (tr : List Event) (r : SampleResult)
    (h1 : 1 ≤ num_chains) (h2 : 0 ≤ num_warmup) (h3 : 1 ≤ num_samples)
    (hok : sample env num_chains num_warmup num_samples seed metric
      init_inv_metric save_metric save_warmup = (tr, Except.ok r)) :
    r.outShape = [num_chains.toNat,
      num_warmup.toNat * (if save_warmup then 1 else 0) + num_samples.toNat,
      7 + (_get_parameter_names env.paramNameString).length] ∧
    r.paramNames.length =
      7 + (_get_parameter_names env.paramNameString).length ∧
    r.paramNames.head? = some "lp__".toList := by
  have hc : ¬ (num_chains < 1) := by omega
  have hw : ¬ (num_warmup < 0) := by omega
  have hn : ¬ (num_samples < 1) := by omega
  unfold sample at hok
  rw [if_neg hc, if_neg hw, if_neg hn] at hok
  cases hcreate : env.createOk
  · obtain ⟨e, he⟩ := get_model_fail env (resolve_seed seed env.rand)
      (sampleBody env num_chains num_warmup num_samples
        (resolve_seed seed env.rand) metric init_inv_metric save_metric
        save_warmup) hcreate
    rw [he] at hok
    exact Except.noConfusion (congrArg Prod.snd hok)
  · rw [get_model_ok _ _ _ hcreate] at hok
    have hb : (sampleBody env num_chains num_warmup num_samples
        (resolve_seed seed env.rand) metric init_inv_metric save_metric
        save_warmup).2 = Except.ok r := congrArg Prod.snd hok
    obtain ⟨hnames, hshape⟩ := sampleBody_ok env num_chains num_warmup
      num_samples (resolve_seed seed env.rand) metric init_inv_metric
      save_metric save_warmup r hb
    refine ⟨?_, ?_, ?_⟩
    · rw [hshape]
      have hdraws : (num_samples + num_warmup * boolInt save_warmup).toNat =
          num_warmup.toNat * (if save_warmup then 1 else 0) +
            num_samples.toNat := by
        cases save_warmup
        · simp [boolInt]
        · simp [boolInt]
          omega
      rw [hdraws]
      simp [HMC_SAMPLER_VARIABLES]
      omega
    · rw [hnames]
      simp [HMC_SAMPLER_VARIABLES]
      omega
    · rw [hnames]
      rfl

/-- Witness for sample_buffer_shape_and_names: 2 chains, 100 warmup
(not saved), 100 samples on a 2-parameter model yields shape (2, 100, 9)
with first column lp__. -/
theorem sample_buffer_shape_and_names_witness :
    (SampleResult.mk
      (HMC_SAMPLER_VARIABLES ++ _get_parameter_names wEnv.paramNameString)
      [2, 100, 9] none).outShape =
      [(2 : Int).toNat,
       (100 : Int).toNat * (if false then 1 else 0) + (100 : Int).toNat,
       7 + (_get_parameter_names wEnv.paramNameString).length] ∧
    (SampleResult.mk
      (HMC_SAMPLER_VARIABLES ++ _get_parameter_names wEnv.paramNameString)
      [2, 100, 9] none).paramNames.length =
      7 + (_get_parameter_names wEnv.paramNameString).length ∧
    (SampleResult.mk
      (HMC_SAMPLER_VARIABLES ++ _get_parameter_names wEnv.paramNameString)
      [2, 100, 9] none).paramNames.head? = some "lp__".toList :=
  sample_buffer_shape_and_names wEnv 2 100 100 (some 3) HMCMetric.DIAGONAL
    none false false
    [Event.createModel 3, Event.numFreeParams, Event.getParamNames,
     Event.ffiSample 3 none, Event.destroyModel]
    (SampleResult.mk
      (HMC_SAMPLER_VARIABLES ++ _get_parameter_names wEnv.paramNameString)
      [2, 100, 9] none)
    (by decide) (by decide) (by decide) (by decide)

/-- C5: in a valid sample call on a model with free parameters, an initial
inverse metric whose shape equals a single chain's metric shape is
broadcast by repetition to (num_chains, ...) before the native call; one
already shaped (num_chains, ...) is passed to the native call unchanged;
any other shape raises a validation error with no native sampling call
performed; and a null initial metric reaches the native call as null, not
as a zero-filled array. -/
theorem sample_metric_handling (env : NativeEnv)
    (num_chains num_warmup num_samples : Int) (seed : Option Nat)
    (metric : HMCMetric) (save_metric save_warmup : Bool)
    (shape : List Nat)
    (h1 : 1 ≤ num_chains) (h2 : 0 ≤ num_warmup) (h3 : 1 ≤ num_samples)
    (hcreate : env.createOk = true) (hzero : env.numFreeParams ≠ 0) :
    (Event.ffiSample (resolve_seed seed env.rand)
        (some (num_chains.toNat :: metricSize metric env.numFreeParams)) ∈
      (sample env num_chains num_warmup num_samples seed metric
        (some (metricSize metric env.numFreeParams)) save_metric
        save_warmup).1) ∧
    (Event.ffiSample (resolve_seed seed env.rand)
        (some (num_chains.toNat :: metricSize metric env.numFreeParams)) ∈
      (sample env num_chains num_warmup num_samples seed metric
        (some (num_chains.toNat :: metricSize metric env.numFreeParams))
        save_metric save_warmup).1) ∧
    (shape ≠ metricSize metric env.numFreeParams →
      shape ≠ num_chains.toNat :: metricSize metric env.numFreeParams →
      (sample env num_chains num_warmup num_samples seed metric (some shape)
          save_metric save_warmup).2 =
        Except.error (Exn.valueError "Invalid initial metric size.") ∧
      ∀ s m, Event.ffiSample s m ∉
        (sample env num_chains num_warmup num_samples seed metric
          (some shape) save_metric save_warmup).1) ∧
    (Event.ffiSample (resolve_seed seed env.rand) none ∈
      (sample env num_chains num_warmup num_samples seed metric none
        save_metric save_warmup).1) := by
  have hc : ¬ (num_chains < 1) := by omega
  have hw : ¬ (num_warmup < 0) := by omega
  have hn : ¬ (num_samples < 1) := by omega
  have hcons : num_chains.toNat :: metricSize metric env.numFreeParams ≠
      metricSize metric env.numFreeParams := List.cons_ne_self _ _
  refine ⟨?_, ?_, ?_, ?_⟩
  · unfold sample
    rw [if_neg hc, if_neg hw, if_neg hn, get_model_ok _ _ _ hcreate]
    cases hrc : (_raise_for_error env.sampleRc env.sampleErr).1 <;>
      simp [sampleBody, hzero, hrc]
  · unfold sample
    rw [if_neg hc, if_neg hw, if_neg hn, get_model_ok _ _ _ hcreate]
    cases hrc : (_raise_for_error env.sampleRc env.sampleErr).1 <;>
      simp [sampleBody, hzero, hrc, hcons]
  · intro hs1 hs2
    unfold sample
    rw [if_neg hc, if_neg hw, if_neg hn, get_model_ok _ _ _ hcreate]
    constructor
    · simp [sampleBody, hzero, hs1, hs2]
    · intro s m
      simp [sampleBody, hzero, hs1, hs2]
  · unfold sample
    rw [if_neg hc, if_neg hw, if_neg hn, get_model_ok _ _ _ hcreate]
    cases hrc : (_raise_for_error env.sampleRc env.sampleErr).1 <;>
      simp [sampleBody, hzero, hrc]

/-- Witness for sample_metric_handling: a dense metric for a 2-parameter
model in a 4-chain run; (2, 2) is broadcast to (4, 2, 2), (4, 2, 2) passes
through unchanged, (3, 2, 2) fails validation with no native sampling call,
and a null metric reaches the native call as null. -/
theorem sample_metric_handling_witness :
    (Event.ffiSample (resolve_seed (some 3) wEnv.rand)
        (some ((4 : Int).toNat ::
          metricSize HMCMetric.DENSE wEnv.numFreeParams)) ∈
      (sample wEnv 4 0 1 (some 3) HMCMetric.DENSE
        (some (metricSize HMCMetric.DENSE wEnv.numFreeParams))
        false false).1) ∧
    (Event.ffiSample (resolve_seed (some 3) wEnv.rand)
        (some ((4 : Int).toNat ::
          metricSize HMCMetric.DENSE wEnv.numFreeParams)) ∈
      (sample wEnv 4 0 1 (some 3) HMCMetric.DENSE
        (some ((4 : Int).toNat ::
          metricSize HMCMetric.DENSE wEnv.numFreeParams)) false false).1) ∧
    (sample wEnv 4 0 1 (some 3) HMCMetric.DENSE (some [3, 2, 2])
        false false).2 =
      Except.error (Exn.valueError "Invalid initial metric size.") ∧
    (Event.ffiSample 9 none ∉
      (sample wEnv 4 0 1 (some 3) HMCMetric.DENSE (some [3, 2, 2])
        false false).1) ∧
    (Event.ffiSample (resolve_seed (some 3) wEnv.rand) none ∈
      (sample wEnv 4 0 1 (some 3) HMCMetric.DENSE none false false).1) := by
  have T := sample_metric_handling wEnv 4 0 1 (some 3) HMCMetric.DENSE
    false false [3, 2, 2] (by decide) (by decide) (by decide) rfl (by decide)
  exact ⟨T.1, T.2.1, (T.2.2.1 (by decide) (by decide)).1,
    (T.2.2.1 (by decide) (by decide)).2 9 none, T.2.2.2⟩

/-- C4 counterexample: a numeric mode of length 5 against a model whose
expected mode length is 2 does raise the size-mismatch error, but the trace
already contains the native model-construction call and the native
parameter-name query — so the failure does not happen before "any native
call is made". -/
theorem laplace_size_check_after_native_call :
    (laplace_sample wEnv (LaplaceModeInput.arr 5) 10 false (some 1)).2 =
      Except.error (Exn.valueError "Mode array has incorrect length.") ∧
    Event.createModel 1 ∈
      (laplace_sample wEnv (LaplaceModeInput.arr 5) 10 false (some 1)).1 ∧
    Event.getParamNames ∈
      (laplace_sample wEnv (LaplaceModeInput.arr 5) 10 false (some 1)).1 := by
  decide

/-- C4 (amended): for every numeric mode vector whose length differs from
numParamNames - 2 (the Laplace fixed-name count), a valid laplace_sample
call raises the size-mismatch error before the native laplace-sampling
call — though necessarily after the native session construction and
parameter-name query — and the already-acquired session is still destroyed
exactly once. -/
theorem laplace_mode_size_mismatch (env : NativeEnv) (n : Nat)
    (num_draws : Int) (save_hessian : Bool) (seed : Option Nat)
    (h1 : 1 ≤ num_draws) (hcreate : env.createOk = true)
    (hn : n ≠ (LAPLACE_VARIABLES ++
      _get_parameter_names env.paramNameString).length - 2) :
    laplace_sample env (LaplaceModeInput.arr n) num_draws save_hessian
        seed =
      ([Event.createModel (resolve_seed seed env.rand),
        Event.getParamNames, Event.destroyModel],
       Except.error (Exn.valueError "Mode array has incorrect length.")) := by
  have hd : ¬ (num_draws < 1) := by omega
  have hb : (n != (LAPLACE_VARIABLES ++
      _get_parameter_names env.paramNameString).length -
        LAPLACE_VARIABLES.length) = true := bne_iff_ne.mpr hn
  have hbody : laplaceBody env (some n) num_draws save_hessian
      (resolve_seed seed env.rand) =
      ([Event.getParamNames],
       Except.error (Exn.valueError "Mode array has incorrect length.")) := by
    simp only [laplaceBody]
    rw [if_pos hb]
  unfold laplace_sample
  rw [if_neg hd]
  show _get_model env (resolve_seed seed env.rand)
      (laplaceBody env (some n) num_draws save_hessian
        (resolve_seed seed env.rand)) = _
  rw [get_model_ok _ _ _ hcreate, hbody]
  rfl

/-- Witness for laplace_mode_size_mismatch: a mode vector of length 5
against a 2-parameter model (expected length 2) with 10 draws and seed 1. -/
theorem laplace_mode_size_mismatch_witness :
    laplace_sample wEnv (LaplaceModeInput.arr 5) 10 false (some 1) =
      ([Event.createModel (resolve_seed (some 1) wEnv.rand),
        Event.getParamNames, Event.destroyModel],
       Except.error (Exn.valueError "Mode array has incorrect length.")) :=
  laplace_mode_size_mismatch wEnv 5 10 false (some 1) (by decide) rfl
    (by decide)

end TinyStan
